import Mathlib

/-!
Verification of the stepper-motor control core against its design document.

The development shallowly embeds the Python sources:
  * `src/rotor_angle.py`     — fixed-point angular position model (`RotorAngle`);
  * `src/electric_cycle.py` and `src/electrical_cycle.py`
                             — waveform table and the two current-calculation
                               strategies (sinusoidal and geometric);
  * `src/microstepper.py`    — `MicrostepMotor` motion controller;
  * `src/stepper_motor.py`   — `StepperMotor`, the near-duplicate variant.

Python integers are modelled as `ℤ` (integer `//` and `%` have floor semantics
with a positive divisor, which coincides with Lean's `Int./` and `Int.%` there);
Python floats are idealized as `ℚ` for the fixed-point/timing arithmetic and as
`ℝ` for the trigonometric current calculations.  Fallible steps (`assert`
failures, division by zero) are made explicit in the result types.
-/

/-! ## rotor_angle.py — class constants -/

/-- `RotorAngle.FULL_STEPS_PER_REV = 200` (rotor_angle.py line 116). -/
def RotorAngle.FULL_STEPS_PER_REV : ℤ := 200

/-- `RotorAngle.SECTOR_COUNT = FULL_STEPS_PER_REV` (rotor_angle.py line 117). -/
def RotorAngle.SECTOR_COUNT : ℤ := RotorAngle.FULL_STEPS_PER_REV

/-- `RotorAngle.SECTOR_TICKS = 2^16` (rotor_angle.py line 119).
In Python `^` is bitwise XOR, not exponentiation, so this evaluates to
`2 XOR 16 = 18` — not to `2**16 = 65536`. The embedding reproduces the
XOR faithfully. -/
def RotorAngle.SECTOR_TICKS : ℤ := ((2 ^^^ 16 : ℕ) : ℤ)

/-- `RotorAngle.TOTAL_TICKS = SECTOR_COUNT * SECTOR_TICKS` (rotor_angle.py line 120). -/
def RotorAngle.TOTAL_TICKS : ℤ := RotorAngle.SECTOR_COUNT * RotorAngle.SECTOR_TICKS

/-- `RotorAngle.is_power_of_2` (rotor_angle.py lines 122-134):
returns `False` for negative input, else tests `n & (n-1) == 0`.
For `n = 0` Python computes `0 & (-1) = 0`, hence returns `True`;
the `ℕ` model computes `0 &&& (0 - 1) = 0 &&& 0 = 0`, the same answer,
and for `n > 0` the two computations are literally the same. -/
def RotorAngle.is_power_of_2 (n : ℤ) : Bool :=
  if n < 0 then false
  else (n.toNat &&& (n.toNat - 1)) == 0

/-- `RotorAngle.__init__` (rotor_angle.py lines 136-152), as a partial
constructor. The three `assert` statements are checked in source order;
a failing assert raises `AssertionError`, modelled as `none`.
Note the first assert checks `is_power_of_2(SECTOR_COUNT)` — with
`SECTOR_COUNT = 200` this is checked on every construction. -/
def RotorAngle.init (sector ticks : ℤ) : Option (ℤ × ℤ) :=
  if ¬ RotorAngle.is_power_of_2 RotorAngle.SECTOR_COUNT then none
  else if ¬ (1 ≤ sector ∧ sector ≤ RotorAngle.SECTOR_COUNT) then none
  else if ¬ (0 ≤ ticks ∧ ticks < RotorAngle.SECTOR_TICKS) then none
  else some (sector, ticks)

/-- Python's `%` on numbers: result has the sign of the divisor,
i.e. `a % b = a - b * floor(a / b)`. Used for the `angle % 360` step. -/
def pymod (a b : ℚ) : ℚ := a - b * ⌊a / b⌋

/-- Python 3's built-in `round` on a rational value: round-half-to-even
(banker's rounding). -/
def python_round (x : ℚ) : ℤ :=
  if x - ⌊x⌋ < 1/2 then ⌊x⌋
  else if 1/2 < x - ⌊x⌋ then ⌊x⌋ + 1
  else if ⌊x⌋ % 2 = 0 then ⌊x⌋ else ⌊x⌋ + 1

/-- The tick count computed by `RotorAngle.from_degrees`
(rotor_angle.py lines 168-174): normalize the angle to `[0, 360)`,
convert to ticks by nearest-tick rounding, and wrap `TOTAL_TICKS` to `0`. -/
def RotorAngle.from_degrees_ticks (angle : ℚ) : ℤ :=
  let angle_normalized := pymod angle 360
  let angle_in_ticks := python_round (angle_normalized * (RotorAngle.TOTAL_TICKS : ℚ) / 360)
  if angle_in_ticks = RotorAngle.TOTAL_TICKS then 0 else angle_in_ticks

/-- The `(sector, position_in_sector)` pair computed by
`RotorAngle.from_degrees` (rotor_angle.py lines 176-178), before the
constructor call. Python `//` and `%` on these nonnegative values agree
with `Int./` and `Int.%`. -/
def RotorAngle.from_degrees_raw (angle : ℚ) : ℤ × ℤ :=
  (RotorAngle.from_degrees_ticks angle / RotorAngle.SECTOR_TICKS + 1,
   RotorAngle.from_degrees_ticks angle % RotorAngle.SECTOR_TICKS)

/-- `RotorAngle.from_degrees` (rotor_angle.py lines 154-180):
the computed pair is passed to the constructor, whose asserts may fail. -/
def RotorAngle.from_degrees (angle : ℚ) : Option (ℤ × ℤ) :=
  RotorAngle.init (RotorAngle.from_degrees_raw angle).1 (RotorAngle.from_degrees_raw angle).2

/-- `RotorAngle.sector_half` (rotor_angle.py lines 232-242) on a
`(sector, ticks)` pair: 1 if `ticks < SECTOR_TICKS // 2` else 2. -/
def RotorAngle.sector_half (a : ℤ × ℤ) : ℤ :=
  if a.2 < RotorAngle.SECTOR_TICKS / 2 then 1 else 2

/-- `RotorAngle.move_one_sector` (rotor_angle.py lines 244-255) on a
`(sector, ticks)` pair: clockwise `sector = (sector % SECTOR_COUNT) + 1`,
counter-clockwise `sector = ((sector - 2) % SECTOR_COUNT) + 1`;
`ticks` is untouched. -/
def RotorAngle.move_one_sector (clockwise : Bool) (a : ℤ × ℤ) : ℤ × ℤ :=
  if clockwise then (a.1 % RotorAngle.SECTOR_COUNT + 1, a.2)
  else ((a.1 - 2) % RotorAngle.SECTOR_COUNT + 1, a.2)

/-- `RotorAngle.rotate_to_sector_boundary` (rotor_angle.py lines 257-274):
no-op when `ticks = 0`; otherwise clockwise advances the sector with
wraparound, and in both directions `ticks` becomes 0. -/
def RotorAngle.rotate_to_sector_boundary (clockwise : Bool) (a : ℤ × ℤ) : ℤ × ℤ :=
  if a.2 = 0 then a
  else ((if clockwise then a.1 % RotorAngle.SECTOR_COUNT + 1 else a.1), 0)

/-! ## electric_cycle.py / electrical_cycle.py — waveform table and strategies -/

/-- `calculate_electric_cycle` (electric_cycle.py lines 23-91, identical in
electrical_cycle.py lines 185-253): a table of `4 * num_microsteps` pairs;
entries at `0`, `N`, `2N`, `3N` are the hard-coded cardinal pairs, all other
entries come from the strategy evaluated at the exact cycle position
`n / (4N)`. Polymorphic in the current type, since the strategy argument is
pluggable in the source. -/
def calculate_electric_cycle {α : Type} [Zero α] [One α] [Neg α]
    (num_microsteps : ℕ) (current_calculator : ℚ → α × α) : List (α × α) :=
  (List.range (4 * num_microsteps)).map fun n =>
    if n = 0 then (1, 0)
    else if n = num_microsteps then (0, 1)
    else if n = 2 * num_microsteps then (-1, 0)
    else if n = 3 * num_microsteps then (0, -1)
    else current_calculator ((n : ℚ) / ((4 * num_microsteps : ℕ) : ℚ))

/-- `calculate_currents_sinusoidal` (electric_cycle.py lines 3-21, identical in
electrical_cycle.py lines 162-182): `(cos(2π p), sin(2π p))`. -/
noncomputable def calculate_currents_sinusoidal (cycle_position : ℝ) : ℝ × ℝ :=
  (Real.cos (2 * Real.pi * cycle_position), Real.sin (2 * Real.pi * cycle_position))

/-- The counter-clockwise axis component `B_ccw = cos θ - sin θ` computed by
`calculate_currents_geometric` (electrical_cycle.py line 127). -/
noncomputable def B_ccw (theta : ℝ) : ℝ := Real.cos theta - Real.sin theta

/-- The clockwise axis component `B_cw = sqrt 2 * sin θ` computed by
`calculate_currents_geometric` (electrical_cycle.py line 128). -/
noncomputable def B_cw (theta : ℝ) : ℝ := Real.sqrt 2 * Real.sin theta

/-- `calculate_currents_geometric` (electrical_cycle.py lines 91-160).
`quarter = int(cycle_position * 4) + 1`; for cycle positions in `[0, 1)` —
the function's documented domain — Python's `int` truncation agrees with
`⌊·⌋`, and `(cycle_position * 4) % 1.0` is the fractional part.
When `quarter` is outside `1..4` the Python function falls through all
branches and raises `NameError` on the final `return Ia, Ib`; that is the
`none` case. -/
noncomputable def calculate_currents_geometric (cycle_position : ℝ) : Option (ℝ × ℝ) :=
  let quarter : ℤ := ⌊cycle_position * 4⌋ + 1
  let position_in_quarter : ℝ := cycle_position * 4 - (⌊cycle_position * 4⌋ : ℝ)
  let theta := position_in_quarter * Real.pi / 4
  if quarter = 1 then some (B_ccw theta, B_cw theta)
  else if quarter = 2 then some (-B_cw theta, B_ccw theta)
  else if quarter = 3 then some (-B_ccw theta, -B_cw theta)
  else if quarter = 4 then some (B_cw theta, -B_ccw theta)
  else none

/-! ## microstepper.py — `MicrostepMotor`

The controller's mutable state is the `(sector, ticks)` pair held by its
`rotor_angle`. Hardware effects are recorded as a trace of events: each
`_energize_phase(phase, I)` call appears as `Event.energize`, each
`time.sleep(d)` as `Event.wait`. An uncaught Python exception
(`AssertionError`, `ZeroDivisionError`) aborts the operation with the state
as it was when the exception was raised; `Outcome` carries the trace so far,
that state, and the exception if any. The precomputed `electric_cycle` table
is passed as an explicit argument (in the source it is instance state set
once by `__init__`); the definitions are polymorphic in the current type so
the control flow, which never inspects the currents, can be evaluated on
rational tables as well as on the real-valued table the source builds. -/

/-- The two motor phases. -/
inductive Phase : Type
  | A
  | B
deriving DecidableEq, Repr

/-- The direction strings `"cw"`, `"ccw"`, `"closest"`. -/
inductive Direction : Type
  | cw
  | ccw
  | closest
deriving DecidableEq, Repr

/-- Uncaught Python exceptions relevant to the embedded code. -/
inductive PyErr : Type
  | assertionError
  | zeroDivisionError
deriving DecidableEq, Repr

/-- A hardware-visible action: a phase energization or a blocking wait. -/
inductive Event (α : Type) : Type
  | energize (phase : Phase) (current : α)
  | wait (seconds : ℚ)
deriving DecidableEq, Repr

/-- Result of running a motor operation: the events issued (in order), the
rotor angle afterwards (or at the point the exception was raised), and the
exception, if one escaped. -/
structure Outcome (α : Type) : Type where
  trace : List (Event α)
  rotor : ℤ × ℤ
  error : Option PyErr
deriving DecidableEq, Repr

/-- `MicrostepMotor.MAX_MICROSTEPS = 2**4` (microstepper.py line 90) —
genuine exponentiation here, unlike `SECTOR_TICKS`. -/
def MicrostepMotor.MAX_MICROSTEPS : ℤ := 2 ^ 4

/-- `self.align_actions` (microstepper.py lines 141-144): the four aligned
electrical configurations. -/
def MicrostepMotor.align_actions {α : Type} [One α] [Neg α] : List (Phase × α) :=
  [(Phase.A, 1), (Phase.B, 1), (Phase.A, -1), (Phase.B, -1)]

/-- `MicrostepMotor.align_rotor` (microstepper.py lines 181-230).
Returns the new rotor angle and the energize events issued. The
`assert direction in ("cw","ccw","closest")` is vacuous under the
`Direction` type. `position` is always in `1..4` (both candidates are
`(· % 4) + 1` of something), so `align_actions[position-1]` cannot fail;
`List.getD` with a dummy default reflects that total lookup. -/
def MicrostepMotor.align_rotor {α : Type} [One α] [Neg α]
    (direction : Direction) (rotor : ℤ × ℤ) : (ℤ × ℤ) × List (Event α) :=
  if rotor.2 = 0 then (rotor, [])
  else
    let sector_norm := (rotor.1 - 1) % 4 + 1
    let position_ccw := sector_norm
    let position_cw := sector_norm % 4 + 1
    let position :=
      match direction with
      | Direction.cw => position_cw
      | Direction.ccw => position_ccw
      | Direction.closest =>
          if RotorAngle.sector_half rotor = 1 then position_ccw else position_cw
    let rotor1 := RotorAngle.rotate_to_sector_boundary (position = position_cw) rotor
    let action := (MicrostepMotor.align_actions (α := α)).getD (position - 1).toNat (Phase.A, 1)
    (rotor1, [Event.energize action.1 action.2])

/-- `MicrostepMotor._rotate_sector` (microstepper.py lines 352-412).
The four `assert`s are checked in source order; then
`stride = MAX_MICROSTEPS // num_microsteps` raises `ZeroDivisionError`
when `num_microsteps == 0` (which passed the power-of-two assert), and
`% len(self.electric_cycle)` raises it when the table is empty — both
before any energization. Otherwise the loop energizes A and B from the
strided table entry and sleeps `duration / num_microsteps`, and finally
`move_one_sector` updates the angle. After the asserts `num_microsteps ≥ 1`,
so indices and `List.getD` stay in range on the source's 64-entry table. -/
def MicrostepMotor._rotate_sector {α : Type} [Zero α] [One α] [Neg α]
    (cycle : List (α × α)) (direction : Direction) (duration : ℚ)
    (num_microsteps : ℤ) (rotor : ℤ × ℤ) : Outcome α :=
  if ¬ RotorAngle.is_power_of_2 num_microsteps then ⟨[], rotor, some PyErr.assertionError⟩
  else if ¬ num_microsteps ≤ MicrostepMotor.MAX_MICROSTEPS then ⟨[], rotor, some PyErr.assertionError⟩
  else if ¬ (direction = Direction.cw ∨ direction = Direction.ccw) then ⟨[], rotor, some PyErr.assertionError⟩
  else if ¬ rotor.2 = 0 then ⟨[], rotor, some PyErr.assertionError⟩
  else if num_microsteps = 0 then ⟨[], rotor, some PyErr.zeroDivisionError⟩
  else if cycle.length = 0 then ⟨[], rotor, some PyErr.zeroDivisionError⟩
  else
    let starting_quarter := (rotor.1 - 1) % 4 + 1
    let offset := (starting_quarter - 1) * MicrostepMotor.MAX_MICROSTEPS
    let stride := MicrostepMotor.MAX_MICROSTEPS / num_microsteps
    let events := ((List.range num_microsteps.toNat).map fun microstep =>
      let cycle_index :=
        if direction = Direction.cw then
          (offset + ((microstep : ℤ) + 1) * stride) % (cycle.length : ℤ)
        else
          (offset - ((microstep : ℤ) + 1) * stride) % (cycle.length : ℤ)
      let entry := cycle.getD cycle_index.toNat (0, 0)
      [Event.energize Phase.A entry.1, Event.energize Phase.B entry.2,
       Event.wait (duration / (num_microsteps : ℚ))]).flatten
    ⟨events, RotorAngle.move_one_sector (decide (direction = Direction.cw)) rotor, none⟩

/-- The `while` loop of `MicrostepMotor._rotate_sectors`
(microstepper.py lines 444-451), for a finite iteration count:
run `_rotate_sector` repeatedly, threading the rotor state and
concatenating traces, stopping at the first exception. -/
def MicrostepMotor.rotate_sector_loop {α : Type} [Zero α] [One α] [Neg α]
    (cycle : List (α × α)) (direction : Direction) (period : ℚ)
    (num_microsteps : ℤ) : ℕ → ℤ × ℤ → Outcome α
  | 0, rotor => ⟨[], rotor, none⟩
  | Nat.succ n, rotor =>
    let o := MicrostepMotor._rotate_sector cycle direction period num_microsteps rotor
    match o.error with
    | some e => ⟨o.trace, o.rotor, some e⟩
    | none =>
      let rest := MicrostepMotor.rotate_sector_loop cycle direction period num_microsteps n o.rotor
      ⟨o.trace ++ rest.trace, rest.rotor, rest.error⟩

/-- `MicrostepMotor._rotate_sectors` (microstepper.py lines 414-454), for a
finite (non-`inf`) sector count: assert alignment, return immediately for
zero sectors, else derive the direction from the sign and rotate
`|num_sectors|` single sectors. -/
def MicrostepMotor._rotate_sectors {α : Type} [Zero α] [One α] [Neg α]
    (cycle : List (α × α)) (num_sectors : ℤ) (period : ℚ)
    (num_microsteps : ℤ) (rotor : ℤ × ℤ) : Outcome α :=
  if ¬ rotor.2 = 0 then ⟨[], rotor, some PyErr.assertionError⟩
  else if num_sectors = 0 then ⟨[], rotor, none⟩
  else
    let direction := if 0 < num_sectors then Direction.cw else Direction.ccw
    MicrostepMotor.rotate_sector_loop cycle direction period num_microsteps num_sectors.natAbs rotor

/-- `MicrostepMotor.spin_rotor` (microstepper.py lines 232-268), for a finite
(non-`inf`) revolution count: assert the direction and `num_revolutions >= 0`,
convert revolutions to sectors by Python rounding, convert rpm to
seconds-per-sector (`60 / (SECTOR_COUNT * rpm)` raises `ZeroDivisionError`
when `rpm == 0`), align the rotor (which may energize a phase), then rotate
the sectors. -/
def MicrostepMotor.spin_rotor {α : Type} [Zero α] [One α] [Neg α]
    (cycle : List (α × α)) (num_revolutions rpm : ℚ) (direction : Direction)
    (num_microsteps : ℤ) (rotor : ℤ × ℤ) : Outcome α :=
  if ¬ (direction = Direction.cw ∨ direction = Direction.ccw) then ⟨[], rotor, some PyErr.assertionError⟩
  else if ¬ 0 ≤ num_revolutions then ⟨[], rotor, some PyErr.assertionError⟩
  else
    let num_sectors := python_round (num_revolutions * (RotorAngle.SECTOR_COUNT : ℚ))
    if (RotorAngle.SECTOR_COUNT : ℚ) * rpm = 0 then ⟨[], rotor, some PyErr.zeroDivisionError⟩
    else
      let period := 60 / ((RotorAngle.SECTOR_COUNT : ℚ) * rpm)
      let a := MicrostepMotor.align_rotor (α := α) direction rotor
      let rest := MicrostepMotor._rotate_sectors cycle num_sectors period num_microsteps a.1
      ⟨a.2 ++ rest.trace, rest.rotor, rest.error⟩

/-- The waveform table `__init__` installs (microstepper.py line 146):
`calculate_electric_cycle(MAX_MICROSTEPS, calculate_currents_sinusoidal)`,
with the stage positions being the exact rationals `n / 64`. -/
noncomputable def MicrostepMotor.electric_cycle : List (ℝ × ℝ) :=
  calculate_electric_cycle MicrostepMotor.MAX_MICROSTEPS.toNat
    (fun p => calculate_currents_sinusoidal (p : ℝ))

/-- The direction pins and 16-bit duty written by
`MicrostepMotor._energize_phase` (microstepper.py lines 509-532) for one
phase; `StepperMotor._energize_phase` (stepper_motor.py lines 476-499) is
textually identical. -/
structure PhaseOutput : Type where
  in1 : ℤ
  in2 : ℤ
  duty : ℤ
deriving DecidableEq, Repr

/-- `_energize_phase(phase, I)` restricted to the hardware writes for the
selected phase: `assert abs(I) <= 1.0` (`none` on failure), direction pins
`in1, in2 = (1, 0)` iff `I >= 0` else `(0, 1)`, and
`duty = int(abs(I) * 65535)` — Python `int()` truncates toward zero, which
on this nonnegative value is `⌊·⌋`. -/
def energize_phase (I : ℚ) : Option PhaseOutput :=
  if ¬ |I| ≤ 1 then none
  else some ⟨if 0 ≤ I then 1 else 0, if 0 ≤ I then 0 else 1, ⌊|I| * 65535⌋⟩

/-! ## stepper_motor.py — `StepperMotor` (the near-duplicate variant) -/

/-- `StepperMotor.MAX_MICROSTEPS = 2**4` (stepper_motor.py line 90). -/
def StepperMotor.MAX_MICROSTEPS : ℤ := 2 ^ 4

/-- `StepperMotor.MIN_DELAY = 0.01` seconds (stepper_motor.py line 91). -/
def StepperMotor.MIN_DELAY : ℚ := 1/100

/-- The per-microstep settling delay computed by
`StepperMotor._rotate_full_step` (stepper_motor.py line 411):
`downtime = max(duration/num_microsteps, StepperMotor.MAX_MICROSTEPS)` —
the second operand is the dimensionless step-count constant `16`, not a
time. -/
def StepperMotor.downtime (duration : ℚ) (num_microsteps : ℤ) : ℚ :=
  max (duration / (num_microsteps : ℚ)) ((StepperMotor.MAX_MICROSTEPS : ℤ) : ℚ)

/-- `StepperMotor._rotate_full_step` (stepper_motor.py lines 365-431):
identical control flow to `MicrostepMotor._rotate_sector` except that every
sleep uses `downtime` instead of `duration / num_microsteps`. -/
def StepperMotor._rotate_full_step {α : Type} [Zero α] [One α] [Neg α]
    (cycle : List (α × α)) (direction : Direction) (duration : ℚ)
    (num_microsteps : ℤ) (rotor : ℤ × ℤ) : Outcome α :=
  if ¬ RotorAngle.is_power_of_2 num_microsteps then ⟨[], rotor, some PyErr.assertionError⟩
  else if ¬ num_microsteps ≤ StepperMotor.MAX_MICROSTEPS then ⟨[], rotor, some PyErr.assertionError⟩
  else if ¬ (direction = Direction.cw ∨ direction = Direction.ccw) then ⟨[], rotor, some PyErr.assertionError⟩
  else if ¬ rotor.2 = 0 then ⟨[], rotor, some PyErr.assertionError⟩
  else if num_microsteps = 0 then ⟨[], rotor, some PyErr.zeroDivisionError⟩
  else if cycle.length = 0 then ⟨[], rotor, some PyErr.zeroDivisionError⟩
  else
    let starting_quarter := (rotor.1 - 1) % 4 + 1
    let offset := (starting_quarter - 1) * StepperMotor.MAX_MICROSTEPS
    let stride := StepperMotor.MAX_MICROSTEPS / num_microsteps
    let events := ((List.range num_microsteps.toNat).map fun microstep =>
      let cycle_index :=
        if direction = Direction.cw then
          (offset + ((microstep : ℤ) + 1) * stride) % (cycle.length : ℤ)
        else
          (offset - ((microstep : ℤ) + 1) * stride) % (cycle.length : ℤ)
      let entry := cycle.getD cycle_index.toNat (0, 0)
      [Event.energize Phase.A entry.1, Event.energize Phase.B entry.2,
       Event.wait (StepperMotor.downtime duration num_microsteps)]).flatten
    ⟨events, RotorAngle.move_one_sector (decide (direction = Direction.cw)) rotor, none⟩

/-! ## Helper lemmas -/

/-- The constructor guard `is_power_of_2(SECTOR_COUNT)` evaluates to `False`
(200 is not a power of two), so every construction fails. -/
lemma RotorAngle.init_eq_none (sector ticks : ℤ) : RotorAngle.init sector ticks = none := by
  have h : RotorAngle.is_power_of_2 RotorAngle.SECTOR_COUNT = false := by decide
  simp [RotorAngle.init, h]

/-- Python `round` is the identity on integers. -/
lemma python_round_intCast (n : ℤ) : python_round ((n : ℚ)) = n := by
  unfold python_round
  norm_num

/-- Closed form for iterating the clockwise sector move from a valid sector. -/
lemma move_cw_iterate (n : ℕ) (s t : ℤ) (h1 : 1 ≤ s) (h2 : s ≤ 200) :
    (RotorAngle.move_one_sector true)^[n] (s, t) = ((s - 1 + (n : ℤ)) % 200 + 1, t) := by
  induction n with
  | zero =>
    simp only [Function.iterate_zero, id_eq, Nat.cast_zero, add_zero]
    rw [Prod.mk.injEq]
    exact ⟨by omega, rfl⟩
  | succ k ih =>
    rw [Function.iterate_succ_apply', ih]
    simp only [RotorAngle.move_one_sector, RotorAngle.SECTOR_COUNT,
      RotorAngle.FULL_STEPS_PER_REV, if_true]
    rw [Prod.mk.injEq]
    refine ⟨?_, rfl⟩
    push_cast
    omega

/-! ## Claim theorems -/

/-- Claim C1 (code bug): the claim says in-range `RotorAngle(sector, ticks)`
construction succeeds and out-of-range construction fails; in the code the
constructor's first assert, `is_power_of_2(SECTOR_COUNT)` with
`SECTOR_COUNT = 200`, fails unconditionally, so every construction —
in-range or not — raises `AssertionError`. -/
theorem C1_construction_always_fails (sector ticks : ℤ) :
    RotorAngle.init sector ticks = none :=
  RotorAngle.init_eq_none sector ticks

/-- Claim C2 (code bug): the claim says `SECTOR_TICKS` is a power of two with
reference value 65536; the code writes `2^16`, which in Python is XOR, so
`SECTOR_TICKS = 18` — not a power of two and not 65536. The derived
equalities `TOTAL_TICKS = SECTOR_COUNT * SECTOR_TICKS` and
`SECTOR_COUNT = 200` do hold. -/
theorem C2_sector_ticks_not_power_of_two :
    RotorAngle.SECTOR_TICKS = 18 ∧
    (∀ k : ℕ, (2 : ℤ) ^ k ≠ RotorAngle.SECTOR_TICKS) ∧
    RotorAngle.SECTOR_TICKS ≠ 65536 ∧
    RotorAngle.SECTOR_COUNT = 200 ∧
    RotorAngle.TOTAL_TICKS = RotorAngle.SECTOR_COUNT * RotorAngle.SECTOR_TICKS := by
  refine ⟨by decide, ?_, by decide, by decide, rfl⟩
  intro k
  have h18 : RotorAngle.SECTOR_TICKS = 18 := by decide
  rw [h18]
  rcases Nat.lt_or_ge k 5 with h | h
  · interval_cases k <;> decide
  · have h32 : (2 : ℤ) ^ 5 ≤ 2 ^ k := pow_le_pow_right₀ (by norm_num) h
    norm_num at h32
    omega

/-- Claim C7 (code bug): the claim says `from_degrees(1.8)` yields
`(sector 2, ticks 0)` and `from_degrees(0.9)` yields
`(sector 1, ticks SECTOR_TICKS/2)`. The arithmetic inside `from_degrees`
does compute exactly those pairs, but the constructor it then calls fails
unconditionally (see C1), so both calls raise instead of returning. -/
theorem C7_from_degrees_scenarios :
    RotorAngle.from_degrees_raw (9/5) = (2, 0) ∧
    RotorAngle.from_degrees_raw (9/10) = (1, RotorAngle.SECTOR_TICKS / 2) ∧
    RotorAngle.from_degrees (9/5) = none ∧
    RotorAngle.from_degrees (9/10) = none := by
  have htt : ((RotorAngle.TOTAL_TICKS : ℤ) : ℚ) = 3600 := by
    have : RotorAngle.TOTAL_TICKS = 3600 := by decide
    rw [this]
    norm_num
  have hmod18 : pymod (9/5) 360 = 9/5 := by
    have hf : ⌊(9/5 : ℚ) / 360⌋ = 0 := by
      rw [Int.floor_eq_zero_iff]
      constructor <;> norm_num
    unfold pymod
    rw [hf]
    norm_num
  have hmod09 : pymod (9/10) 360 = 9/10 := by
    have hf : ⌊(9/10 : ℚ) / 360⌋ = 0 := by
      rw [Int.floor_eq_zero_iff]
      constructor <;> norm_num
    unfold pymod
    rw [hf]
    norm_num
  have ht18 : RotorAngle.from_degrees_ticks (9/5) = 18 := by
    have hv : (9/5 : ℚ) * 3600 / 360 = ((18 : ℤ) : ℚ) := by norm_num
    simp only [RotorAngle.from_degrees_ticks, hmod18, htt, hv, python_round_intCast]
    decide
  have ht09 : RotorAngle.from_degrees_ticks (9/10) = 9 := by
    have hv : (9/10 : ℚ) * 3600 / 360 = ((9 : ℤ) : ℚ) := by norm_num
    simp only [RotorAngle.from_degrees_ticks, hmod09, htt, hv, python_round_intCast]
    decide
  refine ⟨?_, ?_, ?_, ?_⟩
  · unfold RotorAngle.from_degrees_raw
    rw [ht18]
    decide
  · unfold RotorAngle.from_degrees_raw
    rw [ht09]
    decide
  · exact RotorAngle.init_eq_none _ _
  · exact RotorAngle.init_eq_none _ _

/-- Claim C8 (confirmed): from any valid rotor angle, 200 clockwise
`move_one_sector` applications return to the same `(sector, ticks)` pair
(in particular the same sector), sector 200 wraps clockwise to 1 and
sector 1 wraps counter-clockwise to 200, and a clockwise move followed by a
counter-clockwise move restores the original pair, ticks untouched. -/
theorem C8_move_one_sector_wraparound (s t : ℤ) (h1 : 1 ≤ s) (h2 : s ≤ 200)
    (_h3 : 0 ≤ t) (_h4 : t < RotorAngle.SECTOR_TICKS) :
    (RotorAngle.move_one_sector true)^[200] (s, t) = (s, t) ∧
    RotorAngle.move_one_sector true (200, t) = (1, t) ∧
    RotorAngle.move_one_sector false (1, t) = (200, t) ∧
    RotorAngle.move_one_sector false (RotorAngle.move_one_sector true (s, t)) = (s, t) := by
  refine ⟨?_, ?_, ?_, ?_⟩
  · rw [move_cw_iterate 200 s t h1 h2, Prod.mk.injEq]
    exact ⟨by omega, rfl⟩
  · simp only [RotorAngle.move_one_sector, RotorAngle.SECTOR_COUNT,
      RotorAngle.FULL_STEPS_PER_REV, if_true]
    rw [Prod.mk.injEq]
    exact ⟨by omega, rfl⟩
  · simp only [RotorAngle.move_one_sector, RotorAngle.SECTOR_COUNT,
      RotorAngle.FULL_STEPS_PER_REV, Bool.false_eq_true, if_false]
    rw [Prod.mk.injEq]
    exact ⟨by omega, rfl⟩
  · simp only [RotorAngle.move_one_sector, RotorAngle.SECTOR_COUNT,
      RotorAngle.FULL_STEPS_PER_REV, Bool.false_eq_true, if_false, if_true]
    rw [Prod.mk.injEq]
    exact ⟨by omega, rfl⟩

/-- Witness for C8 at the concrete valid angle `(sector 5, ticks 7)`. -/
theorem C8_witness :
    ((1:ℤ) ≤ 5 ∧ (5:ℤ) ≤ 200 ∧ (0:ℤ) ≤ 7 ∧ (7:ℤ) < RotorAngle.SECTOR_TICKS) ∧
    ((RotorAngle.move_one_sector true)^[200] (5, 7) = (5, 7) ∧
     RotorAngle.move_one_sector true (200, 7) = (1, 7) ∧
     RotorAngle.move_one_sector false (1, 7) = (200, 7) ∧
     RotorAngle.move_one_sector false (RotorAngle.move_one_sector true (5, 7)) = (5, 7)) :=
  ⟨⟨by decide, by decide, by decide, by decide⟩,
   C8_move_one_sector_wraparound 5 7 (by decide) (by decide) (by decide) (by decide)⟩

/-- Claim C10 (confirmed): `is_power_of_2(0)` returns `True`, so a
sector-rotation call with `num_microsteps = 0` passes both microstep asserts
and then raises `ZeroDivisionError` computing
`stride = MAX_MICROSTEPS // num_microsteps` — with no phase energized in the
call and the rotor angle unchanged. -/
theorem C10_zero_microsteps_division_by_zero {α : Type} [Zero α] [One α] [Neg α]
    (cycle : List (α × α)) (d : Direction) (dur : ℚ) (s t : ℤ)
    (hd : d = Direction.cw ∨ d = Direction.ccw) (ht : t = 0) :
    RotorAngle.is_power_of_2 0 = true ∧
    MicrostepMotor._rotate_sector cycle d dur 0 (s, t) =
      ⟨[], (s, t), some PyErr.zeroDivisionError⟩ := by
  subst ht
  have hp : RotorAngle.is_power_of_2 0 = true := by decide
  refine ⟨hp, ?_⟩
  rcases hd with h | h <;> subst h <;>
    norm_num [MicrostepMotor._rotate_sector, MicrostepMotor.MAX_MICROSTEPS, hp]

/-- Witness for C10: the concrete call on an empty table, clockwise, from
the aligned angle `(1, 0)`. -/
theorem C10_witness :
    ((Direction.cw = Direction.cw ∨ Direction.cw = Direction.ccw) ∧ (0 : ℤ) = 0) ∧
    (RotorAngle.is_power_of_2 0 = true ∧
     MicrostepMotor._rotate_sector ([] : List (ℚ × ℚ)) Direction.cw 1 0 (1, 0) =
       ⟨[], (1, 0), some PyErr.zeroDivisionError⟩) :=
  ⟨⟨Or.inl rfl, rfl⟩,
   C10_zero_microsteps_division_by_zero [] Direction.cw 1 1 0 (Or.inl rfl) rfl⟩

/-- Claim C9 counterexample: at `I = 0.5` the code writes duty
`int(0.5 * 65535) = 32767` (truncation), while the claimed
`round(abs(I) * 65535)` is `32768`. -/
theorem C9_duty_rounding_counterexample :
    energize_phase (1/2) = some ⟨1, 0, 32767⟩ ∧
    round (|(1/2 : ℚ)| * 65535) = 32768 ∧ (32767 : ℤ) ≠ 32768 := by
  have habs : |(1/2 : ℚ)| = 1/2 := abs_of_nonneg (by norm_num)
  refine ⟨?_, ?_, by decide⟩
  · have hf : ⌊|(1/2 : ℚ)| * 65535⌋ = 32767 := by
      rw [habs, Int.floor_eq_iff]
      norm_num
    unfold energize_phase
    rw [if_neg (by rw [habs]; norm_num)]
    norm_num [hf]
  · rw [round_eq, habs]
    have h1 : (1/2 : ℚ) * 65535 + 1/2 = 32768 := by norm_num
    rw [h1]
    rw [Int.floor_eq_iff]
    norm_num

/-- Claim C9 amended (corrected): for `|I| ≤ 1` the energize call succeeds,
drives the H-bridge forward (`in1=1, in2=0`) exactly when `I ≥ 0` and in
reverse exactly when `I < 0`, and writes the 16-bit duty
`⌊|I| * 65535⌋` — truncation, not rounding — which lies in `[0, 65535]`. -/
theorem C9_energize_phase_contract (I : ℚ) (h : |I| ≤ 1) :
    ∃ out : PhaseOutput, energize_phase I = some out ∧
      ((out.in1 = 1 ∧ out.in2 = 0) ↔ 0 ≤ I) ∧
      ((out.in1 = 0 ∧ out.in2 = 1) ↔ I < 0) ∧
      out.duty = ⌊|I| * 65535⌋ ∧ 0 ≤ out.duty ∧ out.duty ≤ 65535 := by
  refine ⟨⟨if 0 ≤ I then 1 else 0, if 0 ≤ I then 0 else 1, ⌊|I| * 65535⌋⟩, ?_, ?_, ?_, rfl, ?_, ?_⟩
  · unfold energize_phase
    rw [if_neg (by simpa using h)]
  · by_cases h0 : 0 ≤ I
    · simp [h0]
    · simp only [if_neg h0]
      constructor
      · rintro ⟨hx, -⟩
        exact absurd hx (by norm_num)
      · intro hx
        exact absurd hx h0
  · by_cases h0 : 0 ≤ I
    · simp only [if_pos h0]
      constructor
      · rintro ⟨hx, -⟩
        exact absurd hx (by norm_num)
      · intro hI
        exact absurd h0 (not_le.mpr hI)
    · simp only [if_neg h0]
      constructor
      · intro _
        exact lt_of_not_le h0
      · intro _
        norm_num
  · exact Int.floor_nonneg.mpr (by positivity)
  · have hle : |I| * 65535 ≤ ((65535 : ℤ) : ℚ) := by
      have := abs_nonneg I
      push_cast
      nlinarith
    calc ⌊|I| * 65535⌋ ≤ ⌊((65535 : ℤ) : ℚ)⌋ := Int.floor_le_floor hle
    _ = 65535 := Int.floor_intCast 65535

/-- Witness for C9's amended theorem at `I = -3/4`. -/
theorem C9_energize_phase_contract_witness :
    |(-3/4 : ℚ)| ≤ 1 ∧
    ∃ out : PhaseOutput, energize_phase (-3/4) = some out ∧
      ((out.in1 = 1 ∧ out.in2 = 0) ↔ 0 ≤ (-3/4 : ℚ)) ∧
      ((out.in1 = 0 ∧ out.in2 = 1) ↔ (-3/4 : ℚ) < 0) ∧
      out.duty = ⌊|(-3/4 : ℚ)| * 65535⌋ ∧ 0 ≤ out.duty ∧ out.duty ≤ 65535 :=
  ⟨by rw [abs_of_nonpos (by norm_num)]; norm_num,
   C9_energize_phase_contract (-3/4) (by rw [abs_of_nonpos (by norm_num)]; norm_num)⟩

/-- Claim C6 (confirmed): for every power-of-two `N ≥ 1` and every strategy,
the table has exactly `4N` entries and the entries at `0`, `N`, `2N`, `3N`
are the exact hard-coded cardinal pairs, independent of the strategy. -/
theorem C6_table_length_and_cardinal_points {α : Type} [Zero α] [One α] [Neg α]
    (N : ℕ) (f : ℚ → α × α) (h1 : 1 ≤ N) (_h2 : ∃ k : ℕ, N = 2 ^ k) :
    (calculate_electric_cycle N f).length = 4 * N ∧
    (calculate_electric_cycle N f)[0]? = some (1, 0) ∧
    (calculate_electric_cycle N f)[N]? = some (0, 1) ∧
    (calculate_electric_cycle N f)[2 * N]? = some (-1, 0) ∧
    (calculate_electric_cycle N f)[3 * N]? = some (0, -1) := by
  have hN0 : N ≠ 0 := by omega
  have hN1 : 2 * N ≠ 0 := by omega
  have hN2 : 2 * N ≠ N := by omega
  have hN3 : 3 * N ≠ 0 := by omega
  have hN4 : 3 * N ≠ N := by omega
  have hN5 : 3 * N ≠ 2 * N := by omega
  unfold calculate_electric_cycle
  refine ⟨by simp, ?_, ?_, ?_, ?_⟩
  · rw [List.getElem?_map, List.getElem?_range (by omega)]
    simp
  · rw [List.getElem?_map, List.getElem?_range (by omega)]
    simp [hN0]
  · rw [List.getElem?_map, List.getElem?_range (by omega)]
    simp [hN1, hN2]
  · rw [List.getElem?_map, List.getElem?_range (by omega)]
    simp [hN3, hN4, hN5]

/-- Witness for C6 at `N = 2` with the constant zero strategy over `ℚ`. -/
theorem C6_witness :
    ((1 ≤ 2 ∧ ∃ k : ℕ, 2 = 2 ^ k) : Prop) ∧
    ((calculate_electric_cycle 2 (fun _ : ℚ => ((0 : ℚ), (0 : ℚ)))).length = 4 * 2 ∧
     (calculate_electric_cycle 2 (fun _ : ℚ => ((0 : ℚ), (0 : ℚ))))[0]? = some ((1 : ℚ), (0 : ℚ)) ∧
     (calculate_electric_cycle 2 (fun _ : ℚ => ((0 : ℚ), (0 : ℚ))))[2]? = some ((0 : ℚ), (1 : ℚ)) ∧
     (calculate_electric_cycle 2 (fun _ : ℚ => ((0 : ℚ), (0 : ℚ))))[2 * 2]? = some ((-1 : ℚ), (0 : ℚ)) ∧
     (calculate_electric_cycle 2 (fun _ : ℚ => ((0 : ℚ), (0 : ℚ))))[3 * 2]? = some ((0 : ℚ), (-1 : ℚ))) :=
  ⟨⟨by decide, ⟨1, rfl⟩⟩,
   C6_table_length_and_cardinal_points 2 (fun _ : ℚ => ((0 : ℚ), (0 : ℚ))) (by decide) ⟨1, rfl⟩⟩

/-- Claim C5 (code bug): the `MicrostepMotor` sector-rotation primitive does
wait exactly `duration / num_microsteps` between microsteps (third conjunct,
a concrete rotation whose single wait is `0.01/1`), but the `StepperMotor`
variant computes `max(duration/num_microsteps, MAX_MICROSTEPS)`: at
`duration = 0.01 s`, `num_microsteps = 1` it waits 16 seconds — the
dimensionless microstep bound, not a time, contradicting its own docstring,
which says the floor is `MIN_DELAY` (0.01 s). -/
theorem C5_settling_delay_uses_max_microsteps :
    StepperMotor.downtime (1/100) 1 = 16 ∧
    StepperMotor.downtime (1/100) 1 ≠ (1/100 : ℚ) / ((1 : ℤ) : ℚ) ∧
    MicrostepMotor._rotate_sector [((1 : ℚ), (0 : ℚ))] Direction.cw (1/100) 1 (1, 0) =
      ⟨[Event.energize Phase.A 1, Event.energize Phase.B 0, Event.wait (1/100)],
       (2, 0), none⟩ := by
  have hdt : StepperMotor.downtime (1/100) 1 = 16 := by
    unfold StepperMotor.downtime StepperMotor.MAX_MICROSTEPS
    rw [max_eq_right (by norm_num)]
    norm_num
  refine ⟨hdt, by rw [hdt]; norm_num, ?_⟩
  have hr : List.range 1 = [0] := by decide
  norm_num [MicrostepMotor._rotate_sector, MicrostepMotor.MAX_MICROSTEPS,
    RotorAngle.is_power_of_2, RotorAngle.move_one_sector, RotorAngle.SECTOR_COUNT,
    RotorAngle.FULL_STEPS_PER_REV, hr]

/-- Claim C3 counterexample: at cycle position `1/8` (the midpoint of the
first quarter, `θ = π/8`) the geometric strategy returns
`(B_ccw θ, B_cw θ)`, and `IA² + IB²` there equals `2 - √2 ≈ 0.586`, not 1 —
so `IA² + IB²` is not constant `≈ 1` for the corrected strategy. -/
theorem C3_geometric_sum_of_squares_not_one :
    calculate_currents_geometric (1/8) =
      some (B_ccw (Real.pi/8), B_cw (Real.pi/8)) ∧
    B_ccw (Real.pi/8) ^ 2 + B_cw (Real.pi/8) ^ 2 ≠ 1 := by
  constructor
  · have hfl : ⌊(1/8 : ℝ) * 4⌋ = 0 := by
      rw [(by norm_num : (1/8 : ℝ) * 4 = 1/2), Int.floor_eq_zero_iff]
      rw [Set.mem_Ico]
      constructor <;> norm_num
    have harg : ((1/8 : ℝ) * 4 - ((0 : ℤ) : ℝ)) * Real.pi / 4 = Real.pi / 8 := by
      push_cast
      ring
    simp only [calculate_currents_geometric, hfl, harg]
    norm_num
  · have h2 : Real.sqrt 2 ^ 2 = 2 := Real.sq_sqrt (by norm_num)
    have hd : Real.pi / 4 = 2 * (Real.pi / 8) := by ring
    have hsin : Real.sqrt 2 / 2 = 2 * Real.sin (Real.pi/8) * Real.cos (Real.pi/8) := by
      rw [← Real.sin_pi_div_four, hd, Real.sin_two_mul]
    have hcos : Real.sqrt 2 / 2 = 2 * Real.cos (Real.pi/8) ^ 2 - 1 := by
      rw [← Real.cos_pi_div_four, hd, Real.cos_two_mul]
    have hp := Real.sin_sq_add_cos_sq (Real.pi/8)
    have hval : B_ccw (Real.pi/8) ^ 2 + B_cw (Real.pi/8) ^ 2 = 2 - Real.sqrt 2 := by
      unfold B_ccw B_cw
      nlinarith [h2, hsin, hcos, hp]
    rw [hval]
    intro hcontra
    have hs : Real.sqrt 2 = 1 := by linarith
    rw [hs] at h2
    norm_num at h2

/-- Claim C3 amended (corrected): the sinusoidal strategy does satisfy
`IA² + IB² = 1` at every cycle position; the geometric strategy does not
(see the counterexample) — for it, the constant-unit-magnitude property
takes the non-orthogonal-axes form
`B_ccw² + B_cw² + √2·B_ccw·B_cw = 1` (the squared magnitude of the decomposed
field on the two 45°-separated stator-pole axes), which holds for every `θ`. -/
theorem C3_unit_magnitude_forms :
    (∀ p : ℝ, (calculate_currents_sinusoidal p).1 ^ 2 +
              (calculate_currents_sinusoidal p).2 ^ 2 = 1) ∧
    (∀ theta : ℝ, B_ccw theta ^ 2 + B_cw theta ^ 2 +
                  Real.sqrt 2 * (B_ccw theta * B_cw theta) = 1) := by
  constructor
  · intro p
    simp [calculate_currents_sinusoidal]
  · intro theta
    have h2 : Real.sqrt 2 ^ 2 = 2 := Real.sq_sqrt (by norm_num)
    have hp := Real.sin_sq_add_cos_sq theta
    unfold B_ccw B_cw
    linear_combination hp + Real.sin theta * Real.cos theta * h2

/-- Whatever the direction and starting angle, `align_rotor` always leaves
`ticks = 0`. -/
lemma MicrostepMotor.align_rotor_ticks_eq_zero {α : Type} [One α] [Neg α]
    (direction : Direction) (rotor : ℤ × ℤ) :
    ((MicrostepMotor.align_rotor (α := α) direction rotor).1).2 = 0 := by
  unfold MicrostepMotor.align_rotor
  by_cases h : rotor.2 = 0
  · simp [h]
  · simp [h, RotorAngle.rotate_to_sector_boundary]

/-- A sector rotation with a `num_microsteps` that is not a power of two or
exceeds `MAX_MICROSTEPS` fails its asserts immediately: no events, state
unchanged. -/
lemma MicrostepMotor.rotate_sector_invalid_microsteps {α : Type} [Zero α] [One α] [Neg α]
    (cycle : List (α × α)) (direction : Direction) (duration : ℚ) (m : ℤ) (rotor : ℤ × ℤ)
    (hm : ¬ RotorAngle.is_power_of_2 m = true ∨ ¬ m ≤ MicrostepMotor.MAX_MICROSTEPS) :
    MicrostepMotor._rotate_sector cycle direction duration m rotor =
      ⟨[], rotor, some PyErr.assertionError⟩ := by
  unfold MicrostepMotor._rotate_sector
  by_cases h1 : RotorAngle.is_power_of_2 m = true
  · have h2 : ¬ m ≤ MicrostepMotor.MAX_MICROSTEPS := hm.resolve_left (not_not_intro h1)
    simp [h1, h2]
  · simp [h1]

/-- Rotating a nonzero number of sectors with an invalid `num_microsteps`
from an aligned angle fails the microstep asserts at the first sector:
no events, state unchanged. -/
lemma MicrostepMotor.rotate_sectors_invalid_microsteps {α : Type} [Zero α] [One α] [Neg α]
    (cycle : List (α × α)) (num_sectors : ℤ) (period : ℚ) (m : ℤ) (rotor : ℤ × ℤ)
    (hticks : rotor.2 = 0) (hsec : num_sectors ≠ 0)
    (hm : ¬ RotorAngle.is_power_of_2 m = true ∨ ¬ m ≤ MicrostepMotor.MAX_MICROSTEPS) :
    MicrostepMotor._rotate_sectors cycle num_sectors period m rotor =
      ⟨[], rotor, some PyErr.assertionError⟩ := by
  unfold MicrostepMotor._rotate_sectors
  rw [if_neg (not_not_intro hticks), if_neg hsec]
  obtain ⟨k, hk⟩ := Nat.exists_eq_succ_of_ne_zero (Int.natAbs_ne_zero.mpr hsec)
  rw [hk]
  have hstep := MicrostepMotor.rotate_sector_invalid_microsteps cycle
    (if 0 < num_sectors then Direction.cw else Direction.ccw) period m rotor hm
  simp only [MicrostepMotor.rotate_sector_loop, hstep]

/-- `round(1 * SECTOR_COUNT)` as it appears in `spin_rotor` for one
revolution. -/
lemma python_round_one_rev : python_round ((1 : ℚ) * (RotorAngle.SECTOR_COUNT : ℚ)) = 200 := by
  have hcast : (1 : ℚ) * (RotorAngle.SECTOR_COUNT : ℚ) = ((200 : ℤ) : ℚ) := by
    norm_num [RotorAngle.SECTOR_COUNT, RotorAngle.FULL_STEPS_PER_REV]
  rw [hcast, python_round_intCast]

/-- The alignment performed by `spin_rotor(1, 1, "cw", 3)` from the
unaligned angle `(sector 1, ticks 9)`: the rotor is moved to `(2, 0)` and
phase B is fully energized — a physical actuation. -/
lemma align_rotor_cw_1_9 :
    MicrostepMotor.align_rotor (α := ℝ) Direction.cw (1, 9) =
      ((2, 0), [Event.energize Phase.B (1 : ℝ)]) := by
  norm_num [MicrostepMotor.align_rotor, RotorAngle.rotate_to_sector_boundary,
    RotorAngle.SECTOR_COUNT, RotorAngle.FULL_STEPS_PER_REV, MicrostepMotor.align_actions]

/-- Claim C4 counterexample: `spin_rotor(1 revolution, 1 rpm, "cw",
microsteps=3)` — an invalid microstep count — called with the motor's own
sinusoidal waveform table from the unaligned angle `(1, 9)` does raise
`AssertionError`, but only after `align_rotor` has already energized
phase B: the request is not rejected before actuation. -/
theorem C4_actuation_before_rejection :
    (MicrostepMotor.spin_rotor MicrostepMotor.electric_cycle 1 1 Direction.cw 3 (1, 9)).error =
      some PyErr.assertionError ∧
    (MicrostepMotor.spin_rotor MicrostepMotor.electric_cycle 1 1 Direction.cw 3 (1, 9)).trace =
      [Event.energize Phase.B (1 : ℝ)] := by
  have hmul : ¬ ((RotorAngle.SECTOR_COUNT : ℚ) * 1 = 0) := by
    norm_num [RotorAngle.SECTOR_COUNT, RotorAngle.FULL_STEPS_PER_REV]
  have hm : ¬ RotorAngle.is_power_of_2 3 = true ∨
      ¬ (3 : ℤ) ≤ MicrostepMotor.MAX_MICROSTEPS := Or.inl (by decide)
  have hsec : python_round ((RotorAngle.SECTOR_COUNT : ℚ)) ≠ 0 := by
    rw [python_round_intCast]
    decide
  have hscnz : RotorAngle.SECTOR_COUNT ≠ 0 := by decide
  have hrest := MicrostepMotor.rotate_sectors_invalid_microsteps (α := ℝ)
    MicrostepMotor.electric_cycle (python_round ((RotorAngle.SECTOR_COUNT : ℚ)))
    (60 / (RotorAngle.SECTOR_COUNT : ℚ)) 3 (2, 0) rfl hsec hm
  constructor <;>
  · simp only [MicrostepMotor.spin_rotor]
    rw [align_rotor_cw_1_9]
    norm_num [hrest, hscnz]

/-- Claim C4 amended (corrected): for a `spin_rotor` call with a valid
direction, nonnegative revolutions resolving to a nonzero sector count,
nonzero rpm, and a `microsteps` argument that is not a power of two or
exceeds `MAX_MICROSTEPS`, the call fails with `AssertionError` raised by the
sector-rotation primitive — before any energization by that primitive, but
after the initial alignment, whose actuation (if any) has already been
issued; the rejection therefore happens after actuation, not before all
actuation as claimed. -/
theorem C4_microsteps_checked_after_alignment {α : Type} [Zero α] [One α] [Neg α]
    (cycle : List (α × α)) (num_revolutions rpm : ℚ) (direction : Direction)
    (m : ℤ) (rotor : ℤ × ℤ)
    (hdir : direction = Direction.cw ∨ direction = Direction.ccw)
    (hrev : 0 ≤ num_revolutions)
    (hrpm : rpm ≠ 0)
    (hm : ¬ RotorAngle.is_power_of_2 m = true ∨ ¬ m ≤ MicrostepMotor.MAX_MICROSTEPS)
    (hsec : python_round (num_revolutions * (RotorAngle.SECTOR_COUNT : ℚ)) ≠ 0) :
    (MicrostepMotor.spin_rotor cycle num_revolutions rpm direction m rotor).error =
      some PyErr.assertionError ∧
    (MicrostepMotor.spin_rotor cycle num_revolutions rpm direction m rotor).trace =
      (MicrostepMotor.align_rotor (α := α) direction rotor).2 := by
  have hmul : ¬ ((RotorAngle.SECTOR_COUNT : ℚ) * rpm = 0) := by
    intro h
    rcases mul_eq_zero.mp h with h | h
    · norm_num [RotorAngle.SECTOR_COUNT, RotorAngle.FULL_STEPS_PER_REV] at h
    · exact hrpm h
  have hticks := MicrostepMotor.align_rotor_ticks_eq_zero (α := α) direction rotor
  have hrest := MicrostepMotor.rotate_sectors_invalid_microsteps (α := α)
    cycle (python_round (num_revolutions * (RotorAngle.SECTOR_COUNT : ℚ)))
    (60 / ((RotorAngle.SECTOR_COUNT : ℚ) * rpm)) m
    (MicrostepMotor.align_rotor (α := α) direction rotor).1 hticks hsec hm
  constructor <;>
  · simp only [MicrostepMotor.spin_rotor]
    rw [if_neg (not_not_intro hdir), if_neg (not_not_intro hrev), if_neg hmul]
    simp [hrest]

/-- Witness for C4's amended theorem: the concrete invalid spin call
(microsteps 3) on an empty rational table from angle `(1, 9)`. -/
theorem C4_witness :
    ((Direction.cw = Direction.cw ∨ Direction.cw = Direction.ccw) ∧
     (0 : ℚ) ≤ 1 ∧ (1 : ℚ) ≠ 0 ∧
     (¬ RotorAngle.is_power_of_2 3 = true ∨ ¬ (3 : ℤ) ≤ MicrostepMotor.MAX_MICROSTEPS) ∧
     python_round ((1 : ℚ) * (RotorAngle.SECTOR_COUNT : ℚ)) ≠ 0) ∧
    ((MicrostepMotor.spin_rotor ([] : List (ℚ × ℚ)) 1 1 Direction.cw 3 (1, 9)).error =
       some PyErr.assertionError ∧
     (MicrostepMotor.spin_rotor ([] : List (ℚ × ℚ)) 1 1 Direction.cw 3 (1, 9)).trace =
       (MicrostepMotor.align_rotor (α := ℚ) Direction.cw (1, 9)).2) :=
  ⟨⟨Or.inl rfl, by norm_num, by norm_num, Or.inl (by decide),
    by rw [python_round_one_rev]; decide⟩,
   C4_microsteps_checked_after_alignment [] 1 1 Direction.cw 3 (1, 9)
     (Or.inl rfl) (by norm_num) (by norm_num) (Or.inl (by decide))
     (by rw [python_round_one_rev]; decide)⟩
